import Mathlib

/-!
Verification of the core of the AirBnB booking-agent repository
(`agent.py`, `recommender.py`): a calendar model matching Python
`datetime.date`, the slot store and dialogue controller of
`BookingAgent`, and the `Recommender` search/reservation engine,
together with theorems settling the specification claims.
-/

namespace Booking

/-- Gregorian leap-year test, identical to the proleptic calendar used by
Python `datetime` (`calendar.isleap`). -/
def isLeap (y : Nat) : Bool := (y % 4 == 0 && y % 100 != 0) || (y % 400 == 0)

/-- Length of month `m` (1..12) of year `y`, as in Python `datetime`. -/
def daysInMonth (y m : Nat) : Nat :=
  if m = 2 then (if isLeap y then 29 else 28)
  else if m = 4 ∨ m = 6 ∨ m = 9 ∨ m = 11 then 30
  else 31

def daysInYear (y : Nat) : Nat := if isLeap y then 366 else 365

/-- Cumulative day counts before each month in a non-leap year
(index `m` holds the days before month `m`; indices 0 and 1 are 0). -/
def monthOffsets : List Nat :=
  [0, 0, 31, 59, 90, 120, 151, 181, 212, 243, 273, 304, 334]

/-- Days of year `y` that fall before month `m` (`daysBeforeMonth y 1 = 0`). -/
def daysBeforeMonth (y m : Nat) : Nat :=
  monthOffsets.getD m 0 + (if 2 < m && isLeap y then 1 else 0)

/-- Days before January 1 of year `y`, counting from year 1
(`daysBeforeYear 1 = 0`): 365 days per elapsed year plus one per
elapsed leap year. -/
def daysBeforeYear (y : Nat) : Nat :=
  365 * (y - 1) + (y - 1) / 4 - (y - 1) / 100 + (y - 1) / 400

/-- A calendar date as held by a Python `datetime.date` (year, month, day). -/
structure Date where
  year : Nat
  month : Nat
  day : Nat
deriving DecidableEq, Repr

/-- Proleptic-Gregorian ordinal of a date; on valid dates this equals
Python `date.toordinal()` (so `toDays ⟨1,1,1⟩ = 1`).  Python compares
dates exactly by this ordinal. -/
def toDays (d : Date) : Nat :=
  daysBeforeYear d.year + daysBeforeMonth d.year d.month + d.day

/-- Day of week, Monday = 0 .. Sunday = 6, matching `date.weekday()`. -/
def weekday (d : Date) : Nat := (toDays d + 6) % 7

/-- The constraints a Python `date(y, m, d)` object satisfies (we track
the year-9999 upper bound separately, see `pyValid`). -/
def Date.Valid (d : Date) : Prop :=
  1 ≤ d.year ∧ 1 ≤ d.month ∧ d.month ≤ 12 ∧ 1 ≤ d.day ∧
    d.day ≤ daysInMonth d.year d.month

instance (d : Date) : Decidable d.Valid := by
  unfold Date.Valid; infer_instance

/-- Exact domain of the Python `date` constructor: `date(y, m, d)`
succeeds iff this holds (`datetime.MINYEAR = 1`, `MAXYEAR = 9999`). -/
def pyValid (y m d : Nat) : Bool :=
  1 ≤ y && y ≤ 9999 && 1 ≤ m && m ≤ 12 && 1 ≤ d && d ≤ daysInMonth y m

/-- `date.max`: the largest representable Python date.  Adding
`timedelta(days=1)` to it raises `OverflowError`. -/
def dateMax : Date := ⟨9999, 12, 31⟩

/-- Calendar successor (the date one `timedelta(days=1)` later). -/
def nextDay (d : Date) : Date :=
  if d.day < daysInMonth d.year d.month then ⟨d.year, d.month, d.day + 1⟩
  else if d.month < 12 then ⟨d.year, d.month + 1, 1⟩
  else ⟨d.year + 1, 1, 1⟩

/-- `d + timedelta(days=n)` (total model; Python raises past year 9999). -/
def addDays (d : Date) (n : Nat) : Date :=
  Nat.rec (motive := fun _ => Date) d (fun _ ih => nextDay ih) n

/-- `d + relativedelta(months=+n)`: calendar-aware month addition that
keeps the day-of-month where valid and clamps it otherwise. -/
def addMonths (d : Date) (n : Nat) : Date :=
  let t := d.month - 1 + n
  let y := d.year + t / 12
  let m := t % 12 + 1
  ⟨y, m, min d.day (daysInMonth y m)⟩

lemma daysInMonth_pos (y m : Nat) : 1 ≤ daysInMonth y m := by
  unfold daysInMonth; split_ifs <;> omega

lemma isLeap_iff (y : Nat) :
    isLeap y = true ↔ ((y % 4 = 0 ∧ y % 100 ≠ 0) ∨ y % 400 = 0) := by
  simp [isLeap]

set_option maxHeartbeats 1000000 in
lemma daysBeforeYear_succ (y : Nat) (h : 1 ≤ y) :
    daysBeforeYear (y + 1) = daysBeforeYear y + daysInYear y := by
  unfold daysBeforeYear daysInYear
  simp only [Nat.add_sub_cancel]
  by_cases hc : ((y % 4 = 0 ∧ y % 100 ≠ 0) ∨ y % 400 = 0)
  · rw [if_pos ((isLeap_iff y).mpr hc)]
    omega
  · rw [if_neg (fun hh => hc ((isLeap_iff y).mp hh))]
    omega

@[simp] lemma mk_year (y m dd : Nat) : (Date.mk y m dd).year = y := rfl

@[simp] lemma mk_month (y m dd : Nat) : (Date.mk y m dd).month = m := rfl

@[simp] lemma mk_day (y m dd : Nat) : (Date.mk y m dd).day = dd := rfl

lemma valid_mk (y m dd : Nat) :
    (Date.mk y m dd).Valid ↔
      (1 ≤ y ∧ 1 ≤ m ∧ m ≤ 12 ∧ 1 ≤ dd ∧ dd ≤ daysInMonth y m) :=
  Iff.rfl

lemma toDays_mk (y m dd : Nat) :
    toDays ⟨y, m, dd⟩ = daysBeforeYear y + daysBeforeMonth y m + dd := rfl

lemma nextDay_valid {d : Date} (h : d.Valid) : (nextDay d).Valid := by
  obtain ⟨y, m, dd⟩ := d
  rw [valid_mk] at h
  obtain ⟨hy, hm1, hm2, hd1, hd2⟩ := h
  unfold nextDay
  simp only [mk_year, mk_month, mk_day]
  split_ifs with h1 h2
  · rw [valid_mk]
    exact ⟨hy, hm1, hm2, by omega, by omega⟩
  · rw [valid_mk]
    exact ⟨hy, by omega, by omega, by omega, daysInMonth_pos _ _⟩
  · rw [valid_mk]
    exact ⟨by omega, by omega, by omega, by omega, daysInMonth_pos _ _⟩

lemma toDays_nextDay {d : Date} (h : d.Valid) :
    toDays (nextDay d) = toDays d + 1 := by
  obtain ⟨y, m, dd⟩ := d
  obtain ⟨hy, hm1, hm2, hd1, hd2⟩ := h
  simp only [mk_year, mk_month, mk_day] at hy hm1 hm2 hd1 hd2
  unfold nextDay toDays
  split_ifs with h1 h2 <;>
    simp only [mk_year, mk_month, mk_day] at *
  · omega
  · -- end of month, not December: roll to the first of the next month
    have hdd : dd = daysInMonth y m := by omega
    subst hdd
    interval_cases m <;>
      cases hL : isLeap y <;>
        simp_all [daysBeforeMonth, daysInMonth, monthOffsets]
  · -- December 31: roll to January 1 of the next year
    have hm : m = 12 := by omega
    subst hm
    have hdd : dd = 31 := by
      have : daysInMonth y 12 = 31 := by simp [daysInMonth]
      omega
    subst hdd
    rw [daysBeforeYear_succ y hy]
    cases hL : isLeap y <;>
      simp_all [daysBeforeMonth, daysInMonth, daysInYear, monthOffsets]

lemma toDays_lt_nextDay {d : Date} (h : d.Valid) :
    toDays d < toDays (nextDay d) := by
  rw [toDays_nextDay h]; omega

lemma addDays_zero (d : Date) : addDays d 0 = d := rfl

lemma addDays_succ (d : Date) (n : Nat) :
    addDays d (n + 1) = nextDay (addDays d n) := rfl

lemma addDays_valid {d : Date} (h : d.Valid) (n : Nat) :
    (addDays d n).Valid := by
  induction n with
  | zero => exact h
  | succ k ih => rw [addDays_succ]; exact nextDay_valid ih

lemma toDays_addDays {d : Date} (h : d.Valid) (n : Nat) :
    toDays (addDays d n) = toDays d + n := by
  induction n with
  | zero => rfl
  | succ k ih =>
    rw [addDays_succ, toDays_nextDay (addDays_valid h k), ih]
    omega

lemma weekday_addDays {d : Date} (h : d.Valid) (n : Nat) :
    weekday (addDays d n) = (weekday d + n) % 7 := by
  unfold weekday
  rw [toDays_addDays h]
  omega

/-! ### String helpers (ASCII-level models of the Python string operations) -/

/-- Lower-cased character list of a string (`str.lower`, ASCII). -/
def lowerChars (s : String) : List Char := s.toList.map Char.toLower

/-- `str.lower()` (ASCII), built from the character list so that it
evaluates by kernel reduction. -/
def lowerStr (s : String) : String := ⟨lowerChars s⟩

def trimChars (cs : List Char) : List Char :=
  ((cs.dropWhile Char.isWhitespace).reverse.dropWhile Char.isWhitespace).reverse

/-- `str.strip()` (ASCII whitespace). -/
def trimStr (s : String) : String := ⟨trimChars s.toList⟩

def splitCommaAux : List Char → List Char → List String
  | [], acc => [⟨acc.reverse⟩]
  | c :: cs, acc =>
    if c == ',' then (⟨acc.reverse⟩ : String) :: splitCommaAux cs []
    else splitCommaAux cs (c :: acc)

/-- `str.split(",")`. -/
def splitComma (s : String) : List String := splitCommaAux s.toList []

/-- Whether `pat` occurs at the start of `txt`. -/
def startsWithChars (pat : List Char) : List Char → Bool
  | [] => pat.isEmpty
  | t :: ts =>
    match pat with
    | [] => true
    | p :: ps => p == t && startsWithChars ps ts

/-- Whether `pat` occurs contiguously anywhere inside `txt`
(the `in` / `str.contains` substring test). -/
def containsChars (pat : List Char) : List Char → Bool
  | [] => pat.isEmpty
  | t :: ts => startsWithChars pat (t :: ts) || containsChars pat ts

/-- Case-insensitive substring containment: does `text` contain `pat`?
Models `series.str.contains(pat, case=False)` on literal patterns and
`pat.lower() in text.lower()`. -/
def strContainsCI (text pat : String) : Bool :=
  containsChars (lowerChars pat) (lowerChars text)

/-- Python `str.isdigit` for ASCII content together with nonemptiness. -/
def isDigitString (s : String) : Bool :=
  !s.toList.isEmpty && s.toList.all Char.isDigit

/-- Numeric value of an ASCII digit string. -/
def digitsToNat (cs : List Char) : Nat :=
  cs.foldl (fun a c => a * 10 + (c.toNat - 48)) 0

/-- The `NUMBER_WORDS` table of `agent.py`. -/
def NUMBER_WORDS : List (String × Nat) :=
  [("zero", 0), ("one", 1), ("a", 1), ("an", 1), ("two", 2), ("three", 3),
   ("four", 4), ("five", 5), ("six", 6), ("seven", 7), ("eight", 8),
   ("nine", 9), ("ten", 10), ("eleven", 11), ("twelve", 12)]

/-- `_word_to_int`: lower/strip the token, accept a digit string or a
spelled-out number from zero to twelve. -/
def wordToInt (s : String) : Option Nat :=
  let t := trimStr (lowerStr s)
  if isDigitString t then some (digitsToNat t.toList)
  else NUMBER_WORDS.lookup t

/-- Python `int(s)` on a string: optional sign and nonempty digits after
stripping whitespace; anything else raises (modelled as `none`). -/
def pyIntOfString (s : String) : Option Int :=
  let t := trimStr s
  match t.toList with
  | [] => none
  | c :: cs =>
    if c == '-' then
      if !cs.isEmpty && cs.all Char.isDigit then some (-(digitsToNat cs : Int))
      else none
    else if c == '+' then
      if !cs.isEmpty && cs.all Char.isDigit then some ((digitsToNat cs : Int))
      else none
    else if (c :: cs).all Char.isDigit then some ((digitsToNat (c :: cs) : Int))
    else none

/-! ### Date resolver (`_resolve_relative_date` and `_ensure_iso_date`)

The resolver receives free-form text.  We embed it shallowly over an
inductive of the disjoint phrase classes its regex cascade recognizes;
the final `dateutil.parser.parse` free-form fallback is an external
library call and is modelled only where the earlier branches can fall
through to it on an ISO-shaped or slash-delimited string (where it
raises on calendar-impossible dates, i.e. `none`). -/

/-- Phrase classes recognized by `_resolve_relative_date`.  Weekdays are
numbered Monday = 0 .. Sunday = 6 as in `date.weekday()`.  The numeric
offset branches carry the raw count token (a digit or word string). -/
inductive DateText where
  | today
  | tomorrow
  | inDays (tok : String)
  | inWeeks (tok : String)
  | inMonths (tok : String)
  | weekFromNow
  | monthFromNow
  | nextWeekday (w : Fin 7)
  | thisWeekday (w : Fin 7)
  | bareWeekday (w : Fin 7)
  | isoYMD (y m d : Nat)
  | numeric (a b c : Nat)
deriving DecidableEq, Repr

/-- `now + relativedelta(weekday=W(+1))`: dateutil jumps to the next
occurrence of the weekday ON OR AFTER `now` — when `now` already falls
on that weekday the result is `now` itself (offset 0). -/
def toWeekdayOnOrAfter (now : Date) (w : Fin 7) : Date :=
  addDays now ((7 + w.val - weekday now) % 7)

/-- `_resolve_relative_date(text, now)`: `None` models a raised/failed
parse (the caller drops the update). -/
def resolveRelativeDate (t : DateText) (now : Date) : Option Date :=
  match t with
  | .today => some now
  | .tomorrow => some (nextDay now)
  | .inDays tok => (wordToInt tok).map (fun n => addDays now n)
  | .inWeeks tok => (wordToInt tok).map (fun n => addDays now (7 * n))
  | .inMonths tok => (wordToInt tok).map (fun n => addMonths now n)
  | .weekFromNow => some (addDays now 7)
  | .monthFromNow => some (addMonths now 1)
  | .nextWeekday w => some (toWeekdayOnOrAfter now w)
  | .thisWeekday w => some (toWeekdayOnOrAfter now w)
  | .bareWeekday w => some (toWeekdayOnOrAfter now w)
  | .isoYMD y m d => if pyValid y m d then some ⟨y, m, d⟩ else none
  | .numeric a b c =>
    let yy := if c < 100 then c + 2000 else c
    if pyValid yy a b then some ⟨yy, a, b⟩
    else if pyValid yy b a then some ⟨yy, b, a⟩
    else none

/-- `BookingAgent._ensure_iso_date(value)` with `now` the current date in
the agent timezone.  On an ISO-shaped string it applies the stale-year
repair; when any repaired `date(...)` construction raises, the
`except` clause falls through to `_resolve_relative_date`, which
revalidates and returns the original string. -/
def ensureIsoDate (t : DateText) (now : Date) : Option Date :=
  match t with
  | .isoYMD y m d =>
    if pyValid y m d then
      if y < now.year - 1 then
        if pyValid now.year m d then
          if toDays ⟨now.year, m, d⟩ < toDays now then
            if pyValid (now.year + 1) m d then some ⟨now.year + 1, m, d⟩
            else resolveRelativeDate (.isoYMD y m d) now
          else some ⟨now.year, m, d⟩
        else resolveRelativeDate (.isoYMD y m d) now
      else some ⟨y, m, d⟩
    else resolveRelativeDate (.isoYMD y m d) now
  | other => resolveRelativeDate other now

example : weekday ⟨2025, 1, 3⟩ = 4 := by decide
example : weekday ⟨2025, 10, 12⟩ = 6 := by decide
example : toDays ⟨1, 1, 1⟩ = 1 := by decide
example : resolveRelativeDate (.nextWeekday 4) ⟨2025, 1, 3⟩ = some ⟨2025, 1, 3⟩ := by decide
example : ensureIsoDate (.isoYMD 2020 2 29) ⟨2025, 10, 12⟩ = some ⟨2020, 2, 29⟩ := by decide
example : ensureIsoDate (.isoYMD 2020 3 1) ⟨2025, 10, 12⟩ = some ⟨2026, 3, 1⟩ := by decide
example : ensureIsoDate (.isoYMD 2020 11 1) ⟨2025, 10, 12⟩ = some ⟨2025, 11, 1⟩ := by decide

/-! ### Slot Store (`BookingAgent.booking_info` and its update policy) -/

/-- The `booking_info` record.  Date fields hold already-normalized
dates (the Python dict stores their ISO strings, which are always valid
since `_ensure_iso_date` only returns validated dates). -/
structure BookingInfo where
  location : Option String
  checkin_date : Option Date
  checkout_date : Option Date
  property_type : Option String
  amenities : Option (List String)
  number_of_guests : Option Int
deriving DecidableEq, Repr

/-- The freshly-constructed agent state (all fields `None`). -/
def emptyBooking : BookingInfo := ⟨none, none, none, none, none, none⟩

/-- The six required field names, in the order of `REQUIRED_FIELDS`. -/
inductive Field where
  | location
  | checkin
  | checkout
  | propertyType
  | amenities
  | guests
deriving DecidableEq, Repr

/-- `REQUIRED_FIELDS`: the canonical field order of `agent.py`. -/
def REQUIRED_FIELDS : List Field :=
  [.location, .checkin, .checkout, .propertyType, .amenities, .guests]

/-- Python truthiness test `not booking_info.get(k)` on each stored
field value (`None`, `""`, `[]` and `0` are falsy). -/
def fieldFalsy (st : BookingInfo) : Field → Bool
  | .location => match st.location with | none => true | some s => s == ""
  | .checkin => st.checkin_date.isNone
  | .checkout => st.checkout_date.isNone
  | .propertyType => match st.property_type with | none => true | some s => s == ""
  | .amenities => match st.amenities with | none => true | some l => l.isEmpty
  | .guests => match st.number_of_guests with | none => true | some n => n == 0

/-- `BookingAgent._missing_fields`: required fields with falsy values,
in canonical order. -/
def missingFields (st : BookingInfo) : List Field :=
  REQUIRED_FIELDS.filter (fieldFalsy st)

/-- `BookingAgent._is_complete`: every required field's value avoids
`(None, "", [])`.  Note this test admits the integer 0. -/
def isComplete (st : BookingInfo) : Bool :=
  (match st.location with | none => false | some s => s != "") &&
  st.checkin_date.isSome &&
  st.checkout_date.isSome &&
  (match st.property_type with | none => false | some s => s != "") &&
  (match st.amenities with | none => false | some l => !l.isEmpty) &&
  st.number_of_guests.isSome

/-- The finalized-criteria payload built by `_final_json` (JSON
serialization is modelled as the record itself; note the key renames
`checkin_date → date_checkin`, `checkout_date → date_checkout`). -/
structure FinalPayload where
  location : Option String
  date_checkin : Option Date
  date_checkout : Option Date
  property_type : Option String
  amenities : Option (List String)
  number_of_guests : Option Int
deriving DecidableEq, Repr

def finalJson (st : BookingInfo) : FinalPayload :=
  ⟨st.location, st.checkin_date, st.checkout_date, st.property_type,
   st.amenities, st.number_of_guests⟩

/-- Raw amenities value accepted by `_parse_amenities` (the tool schema
allows an array of strings or a comma-delimited string). -/
inductive AmenRaw where
  | ofList (xs : List String)
  | ofStr (s : String)
deriving DecidableEq, Repr

/-- `_parse_amenities`: `None` for `None`, trimmed nonempty tokens
otherwise, with an empty result collapsed back to `None`. -/
def parseAmenities : Option AmenRaw → Option (List String)
  | none => none
  | some (.ofList xs) =>
    let out := (xs.map trimStr).filter (fun x => x != "")
    if out.isEmpty then none else some out
  | some (.ofStr s) =>
    let out := ((splitComma s).map trimStr).filter (fun x => x != "")
    if out.isEmpty then none else some out

/-- Raw guest-count value (the tool schema allows integer or string). -/
inductive GuestRaw where
  | int (n : Int)
  | str (s : String)
deriving DecidableEq, Repr

/-- One `update_booking` tool-call argument set.  `none` on a field
means the key is absent from the arguments (for `amenities`, whose key
presence alone triggers an assignment, the inner option carries the
possibly-`None` value). -/
structure Updates where
  location : Option String
  checkin_date : Option DateText
  checkout_date : Option DateText
  property_type : Option String
  amenities : Option (Option AmenRaw)
  number_of_guests : Option GuestRaw
deriving Repr

/-- Python falsiness of the whole `updates` dict (`if not updates`).
A dict whose every present value is falsy is modelled as empty, since
its only effect — triggering the final date repair — coincides with
that of any batch with no effective key. -/
def Updates.isEmpty (u : Updates) : Bool :=
  u.location.isNone && u.checkin_date.isNone && u.checkout_date.isNone &&
  u.property_type.isNone && u.amenities.isNone && u.number_of_guests.isNone

/-- The per-field assignments of `_normalize_and_update` (everything
before the final cross-field date repair), in source order. -/
def applyFieldUpdates (now : Date) (st : BookingInfo) (u : Updates) : BookingInfo :=
  let st := match u.location with
    | some s => if s != "" then { st with location := some (trimStr s) } else st
    | none => st
  let st := match u.checkin_date with
    | some t =>
      match ensureIsoDate t now with
      | some d => { st with checkin_date := some d }
      | none => st
    | none => st
  let st := match u.checkout_date with
    | some t =>
      match ensureIsoDate t now with
      | some d => { st with checkout_date := some d }
      | none => st
    | none => st
  let st := match u.property_type with
    | some s =>
      if s != "" then
        let pt := lowerStr s
        let pt := if strContainsCI pt "hotel" then "hotel" else pt
        { st with property_type := some pt }
      else st
    | none => st
  let st := match u.amenities with
    | some v => { st with amenities := parseAmenities v }
    | none => st
  match u.number_of_guests with
  | some (.int n) => { st with number_of_guests := some n }
  | some (.str s) =>
    match pyIntOfString s with
    | some n => { st with number_of_guests := some n }
    | none =>
      match wordToInt s with
      | some n => { st with number_of_guests := some (n : Int) }
      | none => st
  | none => st

/-- The cross-field repair at the end of `_normalize_and_update`: when
both dates are stored and checkout ≤ checkin, checkout becomes
checkin + 1 day — except that for checkin = `date.max` the addition
raises `OverflowError`, which the surrounding `except` swallows,
leaving the conflicting pair in place. -/
def applyDateRepair (st : BookingInfo) : BookingInfo :=
  match st.checkin_date, st.checkout_date with
  | some ci, some co =>
    if toDays co ≤ toDays ci then
      if ci = dateMax then st
      else { st with checkout_date := some (nextDay ci) }
    else st
  | _, _ => st

/-- `BookingAgent._normalize_and_update(updates)`. -/
def normalizeAndUpdate (now : Date) (st : BookingInfo) (u : Updates) : BookingInfo :=
  if u.isEmpty then st else applyDateRepair (applyFieldUpdates now st u)

/-! ### Dialogue Controller (`BookingAgent.run`) -/

/-- The fallback questions of `_local_next_question`, verbatim. -/
def qLocation : String := "Where would you like to stay (city or area)?"

def qBothDates : String :=
  "What are your check-in and check-out dates? You can say things like “next Friday to Sunday.”"

def qCheckin : String := "What’s your check-in date?"

def qCheckout : String := "What’s your check-out date?"

def qPropertyType : String :=
  "What type of property do you prefer (e.g., apartment, house, hotel, cabin, studio, penthouse)?"

def qGuests : String := "How many guests will be staying?"

def qAmenities : String :=
  "Any must-have amenities (e.g., wifi, parking, pool, kitchen)? You can list a few."

def qGeneric : String := "Tell me a bit more so I can finish your booking details."

/-- `BookingAgent._local_next_question`: the deterministic keep-alive
question, chosen by the source's own if-cascade over the missing list. -/
def localNextQuestion (st : BookingInfo) : String :=
  let missing := missingFields st
  if Field.location ∈ missing then qLocation
  else if Field.checkin ∈ missing ∧ Field.checkout ∈ missing then qBothDates
  else if Field.checkin ∈ missing then qCheckin
  else if Field.checkout ∈ missing then qCheckout
  else if Field.propertyType ∈ missing then qPropertyType
  else if Field.guests ∈ missing then qGuests
  else if Field.amenities ∈ missing then qAmenities
  else qGeneric

/-- The external extraction capability (OpenAI calls in `run`):
`extract` yields the `update_booking` tool-call argument batches and
`followup` the model-written question; `Except.error` models any API
exception or timeout. -/
structure Oracle where
  extract : BookingInfo → String → Except Unit (List Updates)
  followup : BookingInfo → List Field → Except Unit String

/-- Result of one `BookingAgent.run` turn: the final JSON payload or a
follow-up question. -/
inductive AgentOutput where
  | final (payload : FinalPayload)
  | question (q : String)
deriving DecidableEq, Repr

/-- `BookingAgent.run(user_message)`, returning the reply together with
the updated `booking_info` state. -/
def run (now : Date) (st : BookingInfo) (o : Oracle) (msg : String) :
    AgentOutput × BookingInfo :=
  if isComplete st then (.final (finalJson st), st)
  else
    match o.extract st msg with
    | .error _ => (.question (localNextQuestion st), st)
    | .ok calls =>
      let st1 := calls.foldl (normalizeAndUpdate now) st
      if isComplete st1 then (.final (finalJson st1), st1)
      else
        match o.followup st1 (missingFields st1) with
        | .error _ => (.question (localNextQuestion st1), st1)
        | .ok q =>
          let q := trimStr q
          if q = "" then (.question (localNextQuestion st1), st1)
          else (.question q, st1)

/-! ### Candidate search and ranking (`Recommender.recommend`) -/

/-- A row of the listings catalog (`listings.csv`), with the schema of
§6 of the specification; free-text cells stay strings, and the numeric
rating is modelled exactly as a rational. -/
structure Listing where
  listing_id : Int
  name : String
  location : String
  property_type : String
  price_per_night : String
  bedrooms : Option Int
  rating : ℚ
  reviews_count : Int
  amenities : String
  availability : String
deriving DecidableEq, Repr

/-- The finalized criteria dict as consumed by the recommender
(`location`/`property_type` default to `""` when absent, matching
`criteria.get(...) or ""`). -/
structure Criteria where
  location : String
  date_checkin : Date
  date_checkout : Date
  property_type : String
  amenities : List String
  number_of_guests : Option Int
deriving DecidableEq, Repr

/-- Word-constituent characters for the regex `\b` boundary. -/
def isWordChar (c : Char) : Bool := c.isAlphanum || c == '_'

def boundaryBefore : Option Char → Bool
  | none => true
  | some c => !isWordChar c

def boundaryAfter : List Char → Bool
  | [] => true
  | c :: _ => !isWordChar c

/-- Word-bounded occurrence of `pat` at the head of `ts`, where `prev`
is the character just before `ts` (patterns here begin and end with
word characters, so `\b` demands a non-word neighbour). -/
def boundedAt (pat ts : List Char) (prev : Option Char) : Bool :=
  startsWithChars pat ts && boundaryBefore prev && boundaryAfter (ts.drop pat.length)

def boundedSearchAux (pat : List Char) : List Char → Option Char → Bool
  | [], prev => boundedAt pat [] prev
  | t :: ts, prev => boundedAt pat (t :: ts) prev || boundedSearchAux pat ts (some t)

def boundedSearch (pat txt : List Char) : Bool := boundedSearchAux pat txt none

/-- One compiled amenity regex: either a word-bounded pattern (possibly
with spelling alternatives, e.g. `wi-?fi`) or a plain substring. -/
inductive AmenPat where
  | bounded (alts : List String)
  | plain (s : String)
deriving DecidableEq, Repr

/-- `pattern.search(text)` with `re.IGNORECASE`. -/
def patMatches (text : String) : AmenPat → Bool
  | .bounded alts => alts.any (fun a => boundedSearch (lowerChars a) (lowerChars text))
  | .plain s => containsChars (lowerChars s) (lowerChars text)

/-- `AMENITY_SYNONYMS` compiled for one requested amenity token; an
unknown token becomes its own escaped-literal pattern. -/
def amenityPatterns (a : String) : List AmenPat :=
  let k := lowerStr (trimStr a)
  if k = "wifi" then [.bounded ["wifi"], .bounded ["wifi", "wi-fi"], .plain "wireless internet"]
  else if k = "gym" then [.bounded ["gym"], .plain "fitness center", .plain "fitness room"]
  else if k = "pool" then [.bounded ["pool"], .plain "swimming pool"]
  else if k = "hot tub" then [.plain "hot tub", .plain "jacuzzi"]
  else if k = "parking" then [.plain "parking", .plain "free parking"]
  else [.plain k]

/-- `_normalize_amenity_patterns`. -/
def allAmenityPatterns (requested : List String) : List AmenPat :=
  (requested.map amenityPatterns).flatten

/-- `amenity_score`: the number of requested-amenity patterns matching
the listing's amenity text (0 when nothing was requested). -/
def amenityScore (requested : List String) (text : String) : Nat :=
  (allAmenityPatterns requested).countP (patMatches text)

/-- Availability hard filter: `str.contains("Available", case=False)`. -/
def availOK (r : Listing) : Bool := strContainsCI r.availability "Available"

/-- Stages 1–2 of `recommend`: availability filter, then the location
substring filter whenever a location was requested. -/
def availLocStage (crit : Criteria) (df : List Listing) : List Listing :=
  let df1 := df.filter availOK
  let loc := trimStr crit.location
  if loc != "" then df1.filter (fun r => strContainsCI r.location loc) else df1

def ptMatch (pt : String) (r : Listing) : Bool := strContainsCI r.property_type pt

/-- Stage 3 of `recommend`: the property-type soft filter — applied
only when it keeps at least one candidate. -/
def ptStage (pt : String) (df2 : List Listing) : List Listing :=
  if pt != "" then
    let tmp := df2.filter (ptMatch pt)
    if tmp.isEmpty then df2 else tmp
  else df2

/-- `max(1, math.ceil(guests / 2))`. -/
def guestsNeeded (n : Int) : Int := max 1 ((n + 1).fdiv 2)

/-- Stage 5 of `recommend`: bedroom-capacity filter, skipped for a
falsy (absent or zero) guest count. -/
def guestStage (guests : Option Int) (scored : List (Listing × Nat)) :
    List (Listing × Nat) :=
  match guests with
  | some n =>
    if n != 0 then scored.filter (fun p => guestsNeeded n ≤ p.1.bedrooms.getD 0)
    else scored
  | none => scored

/-- Ranking order of stage 6: descending by amenity matches, then
rating, then review count. -/
def rankGE (a b : Listing × Nat) : Bool :=
  decide (b.2 < a.2 ∨ (a.2 = b.2 ∧ (b.1.rating < a.1.rating ∨
    (a.1.rating = b.1.rating ∧ b.1.reviews_count ≤ a.1.reviews_count))))

def insertScored (a : Listing × Nat) : List (Listing × Nat) → List (Listing × Nat)
  | [] => [a]
  | b :: bs => if rankGE a b then a :: b :: bs else b :: insertScored a bs

/-- `df.sort_values(by=[amenity_matches, rating, reviews_count],
ascending=False)` (a deterministic comparison sort). -/
def sortScored : List (Listing × Nat) → List (Listing × Nat)
  | [] => []
  | a :: rest => insertScored a (sortScored rest)

/-- `Recommender.recommend(criteria, top_k)`. -/
def recommend (crit : Criteria) (df : List Listing) (k : Nat) : List Listing :=
  let df2 := availLocStage crit df
  if df2.isEmpty then []
  else
    let pt := lowerStr (trimStr crit.property_type)
    let df3 := ptStage pt df2
    let scored := df3.map (fun r => (r, amenityScore crit.amenities r.amenities))
    let df4 := guestStage crit.number_of_guests scored
    if df4.isEmpty then []
    else ((sortScored df4).map Prod.fst).take k

/-! ### Reservation transactor (`Recommender.reserve`) -/

/-- `_parse_price`: first decimal number inside the cell text, after
removing commas (the regex `[0-9]+(\.[0-9]+)?`), as an exact rational. -/
def readPriceNum (cs : List Char) : ℚ :=
  let ip := cs.takeWhile Char.isDigit
  let rest := cs.dropWhile Char.isDigit
  match rest with
  | '.' :: r2 =>
    let fp := r2.takeWhile Char.isDigit
    if fp.isEmpty then (digitsToNat ip : ℚ)
    else (digitsToNat ip : ℚ) + (digitsToNat fp : ℚ) / ((10 : ℚ) ^ fp.length)
  | _ => (digitsToNat ip : ℚ)

def findPriceNum : List Char → Option ℚ
  | [] => none
  | c :: cs => if c.isDigit then some (readPriceNum (c :: cs)) else findPriceNum cs

def parsePrice (s : String) : Option ℚ :=
  findPriceNum (s.toList.filter (fun c => c != ','))

/-- Python `round(x, 2)` (banker's rounding), modelled exactly on ℚ. -/
def roundHalfEven (q : ℚ) : ℤ :=
  let f := ⌊q⌋
  let r := q - (f : ℚ)
  if r < 1 / 2 then f
  else if 1 / 2 < r then f + 1
  else if f % 2 = 0 then f else f + 1

def round2 (q : ℚ) : ℚ := (roundHalfEven (q * 100) : ℚ) / 100

/-- One row of `reservations.csv`. -/
structure Reservation where
  reservation_id : String
  listing_id : Int
  name : String
  location : String
  property_type : String
  price_per_night : String
  rating : ℚ
  reviews_count : Int
  amenities : String
  guest_name : Option String
  guest_email : Option String
  date_checkin : Date
  date_checkout : Date
  number_of_guests : Option Int
  nights : Int
  estimated_total : ℚ
  status : String
  created_utc : String
  username : Option String
deriving DecidableEq, Repr

/-- In-place update of the first row satisfying `p`
(`self.df.at[rows.index[0], ...] = ...`). -/
def updateFirst (p : Listing → Bool) (g : Listing → Listing) :
    List Listing → List Listing
  | [] => []
  | x :: xs => if p x then g x :: xs else x :: updateFirst p g xs

def bookListing (r : Listing) : Listing := { r with availability := "Booked" }

/-- `Recommender.reserve(listing_id, criteria, customer, username)`.
The state (catalog and reservation log) is threaded explicitly; `ts`
models the `datetime.utcnow()` timestamp read.  A raised `ValueError`
is the `Except.error` case, which leaves the state untouched exactly
as the Python exception does (both writes happen after all checks). -/
def reserve (df : List Listing) (log : List Reservation) (listing_id : Int)
    (crit : Criteria) (guestName guestEmail username : Option String) (ts : String) :
    Except String Reservation × List Listing × List Reservation :=
  match df.find? (fun r => r.listing_id == listing_id) with
  | none => (.error "Listing not found.", df, log)
  | some row =>
    if lowerStr row.availability != "available" then
      (.error "Sorry, this listing is no longer available.", df, log)
    else if toDays crit.date_checkout ≤ toDays crit.date_checkin then
      (.error "Checkout date must be after check-in date.", df, log)
    else
      let nights : Int := (toDays crit.date_checkout : Int) - (toDays crit.date_checkin : Int)
      let estimated_total := round2 (((parsePrice row.price_per_night).getD 0) * (nights : ℚ))
      let resv : Reservation :=
        { reservation_id := "R-" ++ toString listing_id ++ "-" ++ ts
          listing_id := row.listing_id
          name := row.name
          location := row.location
          property_type := row.property_type
          price_per_night := row.price_per_night
          rating := row.rating
          reviews_count := row.reviews_count
          amenities := row.amenities
          guest_name := guestName
          guest_email := guestEmail
          date_checkin := crit.date_checkin
          date_checkout := crit.date_checkout
          number_of_guests := crit.number_of_guests
          nights := nights
          estimated_total := estimated_total
          status := "Booked"
          created_utc := ts
          username := username }
      (.ok resv,
       updateFirst (fun r => r.listing_id == listing_id) bookListing df,
       log ++ [resv])

/-! ### Claim C5: controller idempotence after completion -/

/-- Claim C5: for every Slot Store state in which the completeness test
holds, every further `run` turn returns the identical finalized payload
and leaves the state unchanged, independent of the extraction oracle
and of the new input (so extraction is never invoked). -/
theorem C5_idempotent_after_completion
    (now now2 : Date) (st : BookingInfo) (o o2 : Oracle) (msg msg2 : String)
    (h : isComplete st = true) :
    run now st o msg = (.final (finalJson st), st) ∧
    run now2 (run now st o msg).2 o2 msg2 = (.final (finalJson st), st) := by
  have h1 : run now st o msg = (.final (finalJson st), st) := by
    unfold run; rw [if_pos h]
  refine ⟨h1, ?_⟩
  rw [h1]
  show run now2 st o2 msg2 = _
  unfold run; rw [if_pos h]

/-- A fully-populated slot store. -/
def stComplete : BookingInfo :=
  ⟨some "Montreal", some ⟨2025, 9, 1⟩, some ⟨2025, 9, 3⟩, some "house",
   some ["wifi"], some 2⟩

/-- An oracle whose every call errors (extraction service down). -/
def oracleDown : Oracle := ⟨fun _ _ => .error (), fun _ _ => .error ()⟩

theorem C5_witness :
    isComplete stComplete = true ∧
    run ⟨2025, 8, 1⟩ stComplete oracleDown "hello" =
      (.final (finalJson stComplete), stComplete) ∧
    run ⟨2025, 8, 1⟩ (run ⟨2025, 8, 1⟩ stComplete oracleDown "hello").2
        oracleDown "again" =
      (.final (finalJson stComplete), stComplete) :=
  ⟨by decide,
   (C5_idempotent_after_completion ⟨2025, 8, 1⟩ ⟨2025, 8, 1⟩ stComplete
      oracleDown oracleDown "hello" "again" (by decide)).1,
   (C5_idempotent_after_completion ⟨2025, 8, 1⟩ ⟨2025, 8, 1⟩ stComplete
      oracleDown oracleDown "hello" "again" (by decide)).2⟩

/-! ### Claim C9: completeness and missing-field reporting disagree at 0 -/

/-- The state before the zero-guests update arrives. -/
def stPreGuests : BookingInfo :=
  ⟨some "Montreal", some ⟨2025, 9, 1⟩, some ⟨2025, 9, 3⟩, some "house",
   some ["wifi"], some 2⟩

/-- An update batch carrying only `number_of_guests = 0`. -/
def uGuestsZero : Updates := ⟨none, none, none, none, none, some (.int 0)⟩

/-- The resulting state with the integer 0 stored as the guest count. -/
def stGuestsZero : BookingInfo :=
  ⟨some "Montreal", some ⟨2025, 9, 1⟩, some ⟨2025, 9, 3⟩, some "house",
   some ["wifi"], some 0⟩

/-- Claim C9 (implicit): the store accepts a guest count of 0, on which
`_is_complete` (which only excludes `None`, `""`, `[]`) returns true
while `_missing_fields` (Python truthiness) still reports
`number_of_guests`; hence completeness is not equivalent to an empty
missing list. -/
theorem C9_complete_vs_missing_disagree :
    normalizeAndUpdate ⟨2025, 8, 1⟩ stPreGuests uGuestsZero = stGuestsZero ∧
    isComplete stGuestsZero = true ∧
    missingFields stGuestsZero = [.guests] ∧
    ¬ (∀ st : BookingInfo, isComplete st = true ↔ missingFields st = []) := by
  refine ⟨by decide, by decide, by decide, fun h => ?_⟩
  exact absurd ((h stGuestsZero).mp (by decide)) (by decide)

/-! ### Claim C10: recommend and reserve disagree on availability -/

/-- A listing whose availability text reads "Unavailable": it contains
the substring "available" case-insensitively, yet does not equal
"available" after lowering. -/
def listingUnavail : Listing :=
  { listing_id := 1, name := "Loft", location := "Montreal",
    property_type := "apartment", price_per_night := "100",
    bedrooms := some 2, rating := 9 / 2, reviews_count := 12,
    amenities := "wifi, parking", availability := "Unavailable" }

def catalogC10 : List Listing := [listingUnavail]

def critC10 : Criteria :=
  { location := "", date_checkin := ⟨2025, 9, 1⟩, date_checkout := ⟨2025, 9, 3⟩,
    property_type := "", amenities := [], number_of_guests := none }

/-- Claim C10 (implicit): `recommend` keeps a listing whenever its
availability text merely contains "available" (case-insensitive), while
`reserve` demands lower-cased equality, so the "Unavailable" listing is
returned by `recommend` yet every `reserve` call on it fails with the
"no longer available" error. -/
theorem C10_availability_interpretations_disagree :
    (recommend critC10 catalogC10 5).map Listing.listing_id = [1] ∧
    strContainsCI "Unavailable" "Available" = true ∧
    (lowerStr "Unavailable" != "available") = true ∧
    ∀ (crit : Criteria) (log : List Reservation) (gn ge un : Option String)
      (ts : String),
      (reserve catalogC10 log 1 crit gn ge un ts).1 =
        .error "Sorry, this listing is no longer available." := by
  refine ⟨by decide, by decide, by decide, fun crit log gn ge un ts => rfl⟩

/-! ### Claim C3: "next weekday" resolution -/

/-- Claim C3 counterexample: January 3, 2025 is a Friday, and resolving
"next friday" (or the bare "friday") from it returns that same day —
not a date strictly after it.  `relativedelta(weekday=FR(+1))` moves to
the requested weekday ON OR AFTER the reference date. -/
theorem C3_counterexample :
    weekday ⟨2025, 1, 3⟩ = 4 ∧
    resolveRelativeDate (.nextWeekday 4) ⟨2025, 1, 3⟩ = some ⟨2025, 1, 3⟩ ∧
    resolveRelativeDate (.bareWeekday 4) ⟨2025, 1, 3⟩ = some ⟨2025, 1, 3⟩ ∧
    ¬ toDays (⟨2025, 1, 3⟩ : Date) < toDays (⟨2025, 1, 3⟩ : Date) := by
  decide

/-- Claim C3 as amended: for every valid reference date (within the
range Python can step 6 days beyond), `resolve("next w")` and the bare
weekday resolve to the same date, which falls on the requested weekday
and is on-or-after the reference: equal to it when the reference
already falls on that weekday, strictly after it otherwise. -/
theorem C3_weekday_on_or_after (ref : Date) (w : Fin 7)
    (hv : ref.Valid) (hy : ref.year ≤ 9998) :
    ∃ r : Date,
      resolveRelativeDate (.nextWeekday w) ref = some r ∧
      resolveRelativeDate (.bareWeekday w) ref = some r ∧
      weekday r = w.val ∧
      toDays ref ≤ toDays r ∧
      (weekday ref = w.val → r = ref) ∧
      (weekday ref ≠ w.val → toDays ref < toDays r) := by
  have hw := w.isLt
  have hmod : weekday ref < 7 := by unfold weekday; omega
  have hy7 : ref.year ≤ 9998 := hy
  refine ⟨toWeekdayOnOrAfter ref w, rfl, rfl, ?_, ?_, ?_, ?_⟩
  · unfold toWeekdayOnOrAfter
    rw [weekday_addDays hv]
    omega
  · unfold toWeekdayOnOrAfter
    rw [toDays_addDays hv]
    omega
  · intro he
    unfold toWeekdayOnOrAfter
    rw [he]
    have h0 : (7 + w.val - w.val) % 7 = 0 := by omega
    rw [h0]
    exact addDays_zero ref
  · intro hne
    unfold toWeekdayOnOrAfter
    rw [toDays_addDays hv]
    omega

theorem C3_witness :
    (⟨2025, 10, 12⟩ : Date).Valid ∧ ((2025 : Nat) ≤ 9998) ∧
    (∃ r : Date,
      resolveRelativeDate (.nextWeekday 2) ⟨2025, 10, 12⟩ = some r ∧
      resolveRelativeDate (.bareWeekday 2) ⟨2025, 10, 12⟩ = some r ∧
      weekday r = (2 : Fin 7).val ∧
      toDays ⟨2025, 10, 12⟩ ≤ toDays r ∧
      (weekday ⟨2025, 10, 12⟩ = (2 : Fin 7).val → r = ⟨2025, 10, 12⟩) ∧
      (weekday ⟨2025, 10, 12⟩ ≠ (2 : Fin 7).val →
        toDays ⟨2025, 10, 12⟩ < toDays r)) :=
  ⟨by decide, by decide,
   C3_weekday_on_or_after ⟨2025, 10, 12⟩ 2 (by decide) (by decide)⟩

/-! ### Claim C4: stale-year repair -/

/-- Claim C4 counterexample: "2020-02-29" is a valid ISO date whose
year is more than one year before reference year 2025, yet the repair
is not applied: `date(2025, 2, 29)` raises inside the `try`, the
`except` falls through to the resolver, and the original date comes
back unchanged — with neither year 2025 nor 2026. -/
theorem C4_counterexample :
    (2020 < (2025 : Nat) - 1) ∧ pyValid 2020 2 29 = true ∧
    ensureIsoDate (.isoYMD 2020 2 29) ⟨2025, 10, 12⟩ = some ⟨2020, 2, 29⟩ ∧
    ensureIsoDate (.isoYMD 2020 2 29) ⟨2025, 10, 12⟩ ≠ some ⟨2025, 2, 29⟩ ∧
    ensureIsoDate (.isoYMD 2020 2 29) ⟨2025, 10, 12⟩ ≠ some ⟨2026, 2, 29⟩ := by
  decide

lemma resolveRelativeDate_iso (y m d : Nat) (now : Date) :
    resolveRelativeDate (.isoYMD y m d) now =
      if pyValid y m d then some ⟨y, m, d⟩ else none := rfl

lemma ensureIsoDate_iso (y m d : Nat) (now : Date) :
    ensureIsoDate (.isoYMD y m d) now =
      (if pyValid y m d then
        if y < now.year - 1 then
          if pyValid now.year m d then
            if toDays ⟨now.year, m, d⟩ < toDays now then
              if pyValid (now.year + 1) m d then some ⟨now.year + 1, m, d⟩
              else resolveRelativeDate (.isoYMD y m d) now
            else some ⟨now.year, m, d⟩
          else resolveRelativeDate (.isoYMD y m d) now
        else some ⟨y, m, d⟩
      else resolveRelativeDate (.isoYMD y m d) now) := rfl

/-- Claim C4 as amended: on a calendar-valid ISO date, if the year is
at most one year old the date is returned unchanged; a stale year is
replaced by the reference year, or by reference year + 1 when the
reference-year variant still falls before the reference date — except
that when the replacement month/day does not exist in the target year
the construction raises and the original date is returned unchanged. -/
theorem C4_stale_year_repair (y m d : Nat) (now : Date)
    (hv : pyValid y m d = true) :
    (¬ y < now.year - 1 →
      ensureIsoDate (.isoYMD y m d) now = some ⟨y, m, d⟩) ∧
    (y < now.year - 1 → pyValid now.year m d = true →
      ¬ toDays ⟨now.year, m, d⟩ < toDays now →
      ensureIsoDate (.isoYMD y m d) now = some ⟨now.year, m, d⟩) ∧
    (y < now.year - 1 → pyValid now.year m d = true →
      toDays ⟨now.year, m, d⟩ < toDays now → pyValid (now.year + 1) m d = true →
      ensureIsoDate (.isoYMD y m d) now = some ⟨now.year + 1, m, d⟩) ∧
    (y < now.year - 1 → pyValid now.year m d = false →
      ensureIsoDate (.isoYMD y m d) now = some ⟨y, m, d⟩) ∧
    (y < now.year - 1 → pyValid now.year m d = true →
      toDays ⟨now.year, m, d⟩ < toDays now → pyValid (now.year + 1) m d = false →
      ensureIsoDate (.isoYMD y m d) now = some ⟨y, m, d⟩) := by
  rw [ensureIsoDate_iso, if_pos hv]
  refine ⟨?_, ?_, ?_, ?_, ?_⟩
  · intro h1
    rw [if_neg h1]
  · intro h1 h2 h3
    rw [if_pos h1, if_pos h2, if_neg h3]
  · intro h1 h2 h3 h4
    rw [if_pos h1, if_pos h2, if_pos h3, if_pos h4]
  · intro h1 h2
    rw [if_pos h1, if_neg (by simp [h2]), resolveRelativeDate_iso, if_pos hv]
  · intro h1 h2 h3 h4
    rw [if_pos h1, if_pos h2, if_pos h3, if_neg (by simp [h4]),
      resolveRelativeDate_iso, if_pos hv]

theorem C4_witness :
    pyValid 2024 5 10 = true ∧ ¬ (2024 < (2025 : Nat) - 1) ∧
    ensureIsoDate (.isoYMD 2024 5 10) ⟨2025, 10, 12⟩ = some ⟨2024, 5, 10⟩ :=
  ⟨by decide, by decide,
   (C4_stale_year_repair 2024 5 10 ⟨2025, 10, 12⟩ (by decide)).1 (by decide)⟩

/-! ### Claim C2: date-ordering repair invariant -/

/-- An update batch supplying checkin 9999-12-31, checkout 9999-12-30. -/
def uOverflow : Updates :=
  ⟨none, some (.isoYMD 9999 12 31), some (.isoYMD 9999 12 30), none, none, none⟩

/-- Claim C2 counterexample: with checkin = `date.max` and an earlier
checkout, the repair's `checkin + timedelta(days=1)` raises
`OverflowError`, the `except` swallows it, and the batch leaves
checkout ≤ checkin — the invariant does not hold after this batch. -/
theorem C2_counterexample :
    uOverflow.isEmpty = false ∧
    (normalizeAndUpdate ⟨2025, 8, 1⟩ emptyBooking uOverflow).checkin_date =
      some ⟨9999, 12, 31⟩ ∧
    (normalizeAndUpdate ⟨2025, 8, 1⟩ emptyBooking uOverflow).checkout_date =
      some ⟨9999, 12, 30⟩ ∧
    toDays (⟨9999, 12, 30⟩ : Date) ≤ toDays (⟨9999, 12, 31⟩ : Date) := by
  decide

lemma applyDateRepair_sound (st : BookingInfo) (ci co : Date)
    (hv : ci.Valid) (hmax : ci ≠ dateMax)
    (hci : (applyDateRepair st).checkin_date = some ci)
    (hco : (applyDateRepair st).checkout_date = some co) :
    toDays ci < toDays co := by
  unfold applyDateRepair at hci hco
  rcases h1 : st.checkin_date with _ | ci0 <;> rw [h1] at hci hco <;>
    rcases h2 : st.checkout_date with _ | co0 <;> rw [h2] at hci hco <;>
      simp only [] at hci hco
  · rw [h1] at hci; simp at hci
  · rw [h1] at hci; simp at hci
  · rw [h2] at hco; simp at hco
  · split_ifs at hci hco with hle hm
    · rw [h1] at hci
      injection hci with hci
      exact absurd (hci ▸ hm) hmax
    · simp only [] at hci hco
      injection hci with hci
      injection hco with hco
      subst hci
      subst hco
      exact toDays_lt_nextDay hv
    · rw [h1] at hci
      rw [h2] at hco
      injection hci with hci
      injection hco with hco
      subst hci
      subst hco
      omega

/-- The specification's concrete conflicting batch:
checkin 2025-08-20 with checkout 2025-08-19. -/
def uAugConflict : Updates :=
  ⟨none, some (.isoYMD 2025 8 20), some (.isoYMD 2025 8 19), none, none, none⟩

/-- Claim C2 as amended: after every nonempty update batch, whenever
both dates are stored (the checkin being a valid date other than
`date.max`, where the repair overflows, see the counterexample) the
checkout strictly follows the checkin; in particular the conflicting
pair 2025-08-20 / 2025-08-19 is repaired to checkout 2025-08-21. -/
theorem C2_date_repair :
    (∀ (now : Date) (st : BookingInfo) (u : Updates) (ci co : Date),
      u.isEmpty = false → ci.Valid → ci ≠ dateMax →
      (normalizeAndUpdate now st u).checkin_date = some ci →
      (normalizeAndUpdate now st u).checkout_date = some co →
      toDays ci < toDays co) ∧
    (normalizeAndUpdate ⟨2025, 8, 1⟩ emptyBooking uAugConflict).checkin_date =
      some ⟨2025, 8, 20⟩ ∧
    (normalizeAndUpdate ⟨2025, 8, 1⟩ emptyBooking uAugConflict).checkout_date =
      some ⟨2025, 8, 21⟩ := by
  refine ⟨?_, by decide, by decide⟩
  intro now st u ci co hne hv hmax hci hco
  unfold normalizeAndUpdate at hci hco
  rw [if_neg (show ¬ u.isEmpty = true by simp [hne])] at hci hco
  exact applyDateRepair_sound _ ci co hv hmax hci hco

theorem C2_witness :
    uAugConflict.isEmpty = false ∧ (⟨2025, 8, 20⟩ : Date).Valid ∧
    (⟨2025, 8, 20⟩ : Date) ≠ dateMax ∧
    toDays (⟨2025, 8, 20⟩ : Date) < toDays (⟨2025, 8, 21⟩ : Date) :=
  ⟨by decide, by decide, by decide,
   C2_date_repair.1 ⟨2025, 8, 1⟩ emptyBooking uAugConflict
     ⟨2025, 8, 20⟩ ⟨2025, 8, 21⟩ (by decide) (by decide) (by decide)
     (by decide) (by decide)⟩

/-! ### Claim C6: fallback question order -/

/-- A state missing exactly amenities and the guest count. -/
def stMissingAmenGuests : BookingInfo :=
  ⟨some "Montreal", some ⟨2025, 9, 1⟩, some ⟨2025, 9, 3⟩, some "house",
   none, none⟩

/-- Claim C6 counterexample: when exactly amenities and
number_of_guests are missing, the local fallback question asks for the
guest count, not for amenities — `_local_next_question` checks
`number_of_guests` before `amenities`, the opposite of the canonical
`REQUIRED_FIELDS` order. -/
theorem C6_counterexample :
    isComplete stMissingAmenGuests = false ∧
    missingFields stMissingAmenGuests = [.amenities, .guests] ∧
    run ⟨2025, 8, 1⟩ stMissingAmenGuests oracleDown "hi" =
      (.question qGuests, stMissingAmenGuests) ∧
    qGuests ≠ qAmenities := by
  decide

lemma mem_missingFields (st : BookingInfo) (f : Field) :
    f ∈ missingFields st ↔ fieldFalsy st f = true := by
  cases f <;> simp [missingFields, REQUIRED_FIELDS]

lemma not_mem_missingFields {st : BookingInfo} {f : Field}
    (h : fieldFalsy st f = false) : ¬ f ∈ missingFields st := by
  intro hm
  rw [(mem_missingFields st f).mp hm] at h
  cases h

/-- The order in which `_local_next_question`'s if-cascade inspects the
fields (guest count before amenities). -/
def fallbackOrder : List Field :=
  [.location, .checkin, .checkout, .propertyType, .guests, .amenities]

/-- The question the cascade asks for a given first-missing field (a
combined dates question when both dates are absent). -/
def questionFor (st : BookingInfo) : Field → String
  | .location => qLocation
  | .checkin => if fieldFalsy st .checkout then qBothDates else qCheckin
  | .checkout => qCheckout
  | .propertyType => qPropertyType
  | .guests => qGuests
  | .amenities => qAmenities

/-- Claim C6 as amended: when the store is incomplete and the
extraction capability errors, the turn returns the deterministic local
question without touching the state, and that question targets the
first missing field in the order location, checkin, checkout,
property_type, number_of_guests, amenities (guest count BEFORE
amenities, unlike the canonical order). -/
theorem C6_fallback_question_order
    (now : Date) (st : BookingInfo) (o : Oracle) (msg : String)
    (hinc : isComplete st = false) (herr : o.extract st msg = .error ()) :
    run now st o msg = (.question (localNextQuestion st), st) ∧
    ∀ f, fallbackOrder.find? (fieldFalsy st) = some f →
      localNextQuestion st = questionFor st f := by
  constructor
  · unfold run
    rw [if_neg (show ¬ isComplete st = true by simp [hinc]), herr]
  · intro f hf
    unfold fallbackOrder at hf
    cases h1 : fieldFalsy st .location <;>
    cases h2 : fieldFalsy st .checkin <;>
    cases h3 : fieldFalsy st .checkout <;>
    cases h4 : fieldFalsy st .propertyType <;>
    cases h5 : fieldFalsy st .guests <;>
    cases h6 : fieldFalsy st .amenities <;>
      simp only [List.find?, h1, h2, h3, h4, h5, h6] at hf <;>
      first
        | (injection hf with hf; subst hf;
           simp [localNextQuestion, questionFor, mem_missingFields,
             h1, h2, h3, h4, h5, h6])
        | cases hf

theorem C6_witness :
    isComplete stMissingAmenGuests = false ∧
    oracleDown.extract stMissingAmenGuests "hi" = .error () ∧
    run ⟨2025, 8, 1⟩ stMissingAmenGuests oracleDown "hi" =
      (.question (localNextQuestion stMissingAmenGuests), stMissingAmenGuests) ∧
    (∀ f, fallbackOrder.find? (fieldFalsy stMissingAmenGuests) = some f →
      localNextQuestion stMissingAmenGuests =
        questionFor stMissingAmenGuests f) :=
  ⟨by decide, rfl,
   (C6_fallback_question_order ⟨2025, 8, 1⟩ stMissingAmenGuests oracleDown "hi"
      (by decide) rfl).1,
   (C6_fallback_question_order ⟨2025, 8, 1⟩ stMissingAmenGuests oracleDown "hi"
      (by decide) rfl).2⟩

/-! ### Claim C7: property-type soft filter degrades gracefully -/

lemma availLocStage_congr (crit crit2 : Criteria) (df : List Listing)
    (hloc : crit2.location = crit.location) :
    availLocStage crit2 df = availLocStage crit df := by
  unfold availLocStage
  rw [hloc]

/-- Claim C7: in `recommend`, on the set surviving the availability and
location filters, the case-insensitive property-type substring filter
is skipped when it would empty the set (and then the result coincides
with recommending without a property type); otherwise only matching
candidates proceed to scoring. -/
theorem C7_property_type_soft_filter (crit : Criteria) (df : List Listing)
    (k : Nat) (hpt : lowerStr (trimStr crit.property_type) ≠ "") :
    ((availLocStage crit df).filter
        (ptMatch (lowerStr (trimStr crit.property_type))) = [] →
      ptStage (lowerStr (trimStr crit.property_type)) (availLocStage crit df) =
        availLocStage crit df ∧
      recommend crit df k = recommend { crit with property_type := "" } df k) ∧
    ((availLocStage crit df).filter
        (ptMatch (lowerStr (trimStr crit.property_type))) ≠ [] →
      ptStage (lowerStr (trimStr crit.property_type)) (availLocStage crit df) =
        (availLocStage crit df).filter
          (ptMatch (lowerStr (trimStr crit.property_type)))) := by
  have hbne : ((lowerStr (trimStr crit.property_type)) != "") = true :=
    bne_iff_ne.mpr hpt
  constructor
  · intro hemp
    have hstage : ptStage (lowerStr (trimStr crit.property_type))
        (availLocStage crit df) = availLocStage crit df := by
      unfold ptStage
      rw [if_pos hbne, hemp]
      simp
    refine ⟨hstage, ?_⟩
    have hAL : availLocStage { crit with property_type := "" } df =
        availLocStage crit df := availLocStage_congr _ _ _ rfl
    have hpt2 : lowerStr (trimStr
        ({ crit with property_type := "" } : Criteria).property_type) = "" := by
      show lowerStr (trimStr "") = ""
      decide
    have hstage2 : ptStage (lowerStr (trimStr
        ({ crit with property_type := "" } : Criteria).property_type))
        (availLocStage crit df) = availLocStage crit df := by
      rw [hpt2]
      unfold ptStage
      simp
    unfold recommend
    simp only [hAL, hstage, hstage2]
  · intro hne
    have hE : ((availLocStage crit df).filter
        (ptMatch (lowerStr (trimStr crit.property_type)))).isEmpty = false := by
      cases hcase : (availLocStage crit df).filter
          (ptMatch (lowerStr (trimStr crit.property_type))) with
      | nil => exact absurd hcase hne
      | cons a l => rfl
    unfold ptStage
    rw [if_pos hbne]
    simp only [hE]
    simp

/-- A catalog/criteria pair on which the requested property type
matches nothing. -/
def listingC7 : Listing :=
  { listing_id := 2, name := "Flat", location := "Montreal",
    property_type := "apartment", price_per_night := "80",
    bedrooms := some 1, rating := 4, reviews_count := 3,
    amenities := "wifi", availability := "Available" }

def catalogC7 : List Listing := [listingC7]

def critC7 : Criteria :=
  { location := "", date_checkin := ⟨2025, 9, 1⟩, date_checkout := ⟨2025, 9, 3⟩,
    property_type := "castle", amenities := [], number_of_guests := none }

theorem C7_witness :
    lowerStr (trimStr critC7.property_type) ≠ "" ∧
    (availLocStage critC7 catalogC7).filter
      (ptMatch (lowerStr (trimStr critC7.property_type))) = [] ∧
    ptStage (lowerStr (trimStr critC7.property_type))
      (availLocStage critC7 catalogC7) = availLocStage critC7 catalogC7 ∧
    recommend critC7 catalogC7 5 =
      recommend { critC7 with property_type := "" } catalogC7 5 :=
  ⟨by decide, by decide,
   ((C7_property_type_soft_filter critC7 catalogC7 5 (by decide)).1
      (by decide)).1,
   ((C7_property_type_soft_filter critC7 catalogC7 5 (by decide)).1
      (by decide)).2⟩

/-! ### Claim C8: reserve failure conditions and atomicity -/

/-- Claim C8: `reserve` fails exactly when the listing id is absent,
the first matching row's availability is not (case-insensitively)
"available", or checkout is not strictly after checkin; and in every
failure case the catalog and the reservation log are returned
unchanged. -/
theorem C8_reserve_failure_atomicity
    (df : List Listing) (log : List Reservation) (id : Int) (crit : Criteria)
    (gn ge un : Option String) (ts : String) :
    ((∃ e, (reserve df log id crit gn ge un ts).1 = .error e) ↔
      (df.find? (fun r => r.listing_id == id) = none ∨
       (∃ row, df.find? (fun r => r.listing_id == id) = some row ∧
         lowerStr row.availability ≠ "available") ∨
       toDays crit.date_checkout ≤ toDays crit.date_checkin)) ∧
    ((∃ e, (reserve df log id crit gn ge un ts).1 = .error e) →
      (reserve df log id crit gn ge un ts).2.1 = df ∧
      (reserve df log id crit gn ge un ts).2.2 = log) := by
  unfold reserve
  rcases hf : df.find? (fun r => r.listing_id == id) with _ | row <;>
    rw [hf] <;> simp only []
  · simp
  · split_ifs with hav hdt
    · have hav2 : lowerStr row.availability ≠ "available" := by
        simpa using hav
      constructor
      · constructor
        · intro _
          exact Or.inr (Or.inl ⟨row, rfl, hav2⟩)
        · intro _
          exact ⟨"Sorry, this listing is no longer available.", rfl⟩
      · intro _
        exact ⟨rfl, rfl⟩
    · constructor
      · constructor
        · intro _
          exact Or.inr (Or.inr hdt)
        · intro _
          exact ⟨"Checkout date must be after check-in date.", rfl⟩
      · intro _
        exact ⟨rfl, rfl⟩
    · have hav2 : lowerStr row.availability = "available" := by
        simpa using hav
      constructor
      · constructor
        · rintro ⟨e, he⟩
          cases he
        · rintro (h | ⟨row2, hrow2, hne2⟩ | hd)
          · cases h
          · injection hrow2 with hrow2
            exact absurd (hrow2 ▸ hav2) hne2
          · exact absurd hd hdt
      · rintro ⟨e, he⟩
        cases he

/-- A one-listing catalog for exercising the failure cases. -/
def catalogC8 : List Listing := [listingC7]

def critC8Bad : Criteria :=
  { location := "", date_checkin := ⟨2025, 9, 3⟩, date_checkout := ⟨2025, 9, 1⟩,
    property_type := "", amenities := [], number_of_guests := none }

theorem C8_witness :
    (∃ e, (reserve catalogC8 [] 2 critC8Bad none none none "t").1 = .error e) ∧
    (reserve catalogC8 [] 2 critC8Bad none none none "t").2.1 = catalogC8 ∧
    (reserve catalogC8 [] 2 critC8Bad none none none "t").2.2 =
      ([] : List Reservation) :=
  ⟨(C8_reserve_failure_atomicity catalogC8 [] 2 critC8Bad none none none
      "t").1.mpr (Or.inr (Or.inr (by decide))),
   ((C8_reserve_failure_atomicity catalogC8 [] 2 critC8Bad none none none
      "t").2 ((C8_reserve_failure_atomicity catalogC8 [] 2 critC8Bad none none
        none "t").1.mpr (Or.inr (Or.inr (by decide))))).1,
   ((C8_reserve_failure_atomicity catalogC8 [] 2 critC8Bad none none none
      "t").2 ((C8_reserve_failure_atomicity catalogC8 [] 2 critC8Bad none none
        none "t").1.mpr (Or.inr (Or.inr (by decide))))).2⟩

/-! ### Claim C1: at-most-once booking per listing (sequential) -/

lemma mem_insertScored {a x : Listing × Nat} {l : List (Listing × Nat)} :
    x ∈ insertScored a l ↔ x = a ∨ x ∈ l := by
  induction l with
  | nil => simp [insertScored]
  | cons b bs ih =>
    unfold insertScored
    by_cases hr : rankGE a b = true
    · rw [if_pos hr]
      simp [List.mem_cons]
    · rw [if_neg hr]
      simp only [List.mem_cons, ih]
      tauto

lemma mem_sortScored {x : Listing × Nat} {l : List (Listing × Nat)} :
    x ∈ sortScored l ↔ x ∈ l := by
  induction l with
  | nil => simp [sortScored]
  | cons a as ih =>
    unfold sortScored
    rw [mem_insertScored]
    simp [ih]

lemma guestStage_subset {g : Option Int} {scored : List (Listing × Nat)}
    {p : Listing × Nat} (h : p ∈ guestStage g scored) : p ∈ scored := by
  unfold guestStage at h
  rcases g with _ | n
  · exact h
  · simp only [] at h
    split_ifs at h
    · exact List.mem_of_mem_filter h
    · exact h

lemma ptStage_subset {pt : String} {df2 : List Listing} {r : Listing}
    (h : r ∈ ptStage pt df2) : r ∈ df2 := by
  unfold ptStage at h
  split_ifs at h
  · simp only [] at h
    split_ifs at h
    · exact h
    · exact List.mem_of_mem_filter h
  · exact h

lemma availLocStage_subset {crit : Criteria} {df : List Listing} {r : Listing}
    (h : r ∈ availLocStage crit df) : r ∈ df ∧ availOK r = true := by
  unfold availLocStage at h
  simp only [] at h
  split_ifs at h
  · have h2 := List.mem_of_mem_filter h
    exact ⟨(List.mem_filter.mp h2).1, (List.mem_filter.mp h2).2⟩
  · exact ⟨(List.mem_filter.mp h).1, (List.mem_filter.mp h).2⟩

/-- Every listing returned by `recommend` comes from the catalog and
passed the availability substring filter. -/
lemma mem_of_mem_recommend {crit : Criteria} {df : List Listing} {k : Nat}
    {r : Listing} (h : r ∈ recommend crit df k) :
    r ∈ df ∧ availOK r = true := by
  unfold recommend at h
  simp only [] at h
  split_ifs at h
  · cases h
  · cases h
  · have h1 := List.mem_of_mem_take h
    obtain ⟨p, hp, hpr⟩ := List.mem_map.mp h1
    have hp2 := mem_sortScored.mp hp
    have hp3 := guestStage_subset hp2
    obtain ⟨r0, hr0, hr0p⟩ := List.mem_map.mp hp3
    have hr : r = r0 := by rw [← hpr, ← hr0p]
    subst hr
    exact availLocStage_subset (ptStage_subset hr0)

/-- After flipping the first row matching `id` to "Booked", every row
still carrying `id` is "Booked" (ids are unique in the catalog). -/
lemma updateFirst_booked_unique (id : Int) (df : List Listing)
    (hN : (df.map Listing.listing_id).Nodup) :
    ∀ l ∈ updateFirst (fun r => r.listing_id == id) bookListing df,
      l.listing_id = id → l.availability = "Booked" := by
  induction df with
  | nil => intro l hl; cases hl
  | cons x xs ih =>
    intro l hl hid
    rw [List.map_cons, List.nodup_cons] at hN
    unfold updateFirst at hl
    by_cases hx : (x.listing_id == id) = true
    · rw [if_pos hx] at hl
      rcases List.mem_cons.mp hl with h | h
      · subst h; rfl
      · exfalso
        have hxid : x.listing_id = id := by simpa using hx
        have h2 : id ∈ xs.map Listing.listing_id :=
          List.mem_map.mpr ⟨l, h, hid⟩
        rw [← hxid] at h2
        exact hN.1 h2
    · rw [if_neg hx] at hl
      rcases List.mem_cons.mp hl with h | h
      · subst h
        exact absurd hid (by simpa using hx)
      · exact ih hN.2 l h hid

/-- Looking the id up again after the flip finds the booked row. -/
lemma find?_updateFirst (id : Int) (df : List Listing) (row : Listing)
    (hf : df.find? (fun r => r.listing_id == id) = some row) :
    (updateFirst (fun r => r.listing_id == id) bookListing df).find?
      (fun r => r.listing_id == id) = some (bookListing row) := by
  induction df with
  | nil => cases hf
  | cons x xs ih =>
    unfold updateFirst
    by_cases hx : (x.listing_id == id) = true
    · rw [if_pos hx]
      rw [List.find?_cons_of_pos (p := fun r => r.listing_id == id) xs hx] at hf
      injection hf with hf
      subst hf
      exact List.find?_cons_of_pos (p := fun r => r.listing_id == id)
        (a := bookListing x) xs hx
    · rw [if_neg hx]
      rw [List.find?_cons_of_neg (p := fun r => r.listing_id == id) xs hx] at hf
      rw [List.find?_cons_of_neg (p := fun r => r.listing_id == id)
        (updateFirst (fun r => r.listing_id == id) bookListing xs) hx]
      exact ih hf

/-- Claim C1: in a catalog keyed by listing id, after a successful
`reserve` the listing's availability flag reads "Booked", the listing
is excluded from every subsequent `recommend` on the new catalog, and a
second `reserve` on the same id fails with the "no longer available"
error. -/
theorem C1_reserve_at_most_once
    (df : List Listing) (log : List Reservation) (id : Int) (crit : Criteria)
    (gn ge un : Option String) (ts : String)
    (hN : (df.map Listing.listing_id).Nodup)
    (resv : Reservation) (df2 : List Listing) (log2 : List Reservation)
    (hok : reserve df log id crit gn ge un ts = (.ok resv, df2, log2)) :
    (∃ l, l ∈ df2 ∧ l.listing_id = id ∧ l.availability = "Booked") ∧
    (∀ l ∈ df2, l.listing_id = id → l.availability = "Booked") ∧
    (∀ (crit2 : Criteria) (k : Nat), ∀ l ∈ recommend crit2 df2 k,
      l.listing_id ≠ id) ∧
    (∀ (crit3 : Criteria) (log3 : List Reservation)
      (gn3 ge3 un3 : Option String) (ts3 : String),
      (reserve df2 log3 id crit3 gn3 ge3 un3 ts3).1 =
        .error "Sorry, this listing is no longer available.") := by
  unfold reserve at hok
  rcases hf : df.find? (fun r => r.listing_id == id) with _ | row <;>
    rw [hf] at hok <;> simp only [] at hok
  · simp at hok
  · split_ifs at hok with hav hdt
    · simp at hok
    · simp at hok
    · have hdf2 : df2 =
          updateFirst (fun r => r.listing_id == id) bookListing df := by
        have h2 := congrArg (fun t => t.2.1) hok
        simpa using h2.symm
      have hrowid : (row.listing_id == id) = true :=
        List.find?_some (p := fun r : Listing => r.listing_id == id) hf
      have hrowid2 : row.listing_id = id := by simpa using hrowid
      have hfind2 := find?_updateFirst id df row hf
      subst hdf2
      refine ⟨?_, ?_, ?_, ?_⟩
      · exact ⟨bookListing row, List.mem_of_find?_eq_some hfind2,
          hrowid2, rfl⟩
      · exact updateFirst_booked_unique id df hN
      · intro crit2 k l hl hid
        obtain ⟨hmem, hav2⟩ := mem_of_mem_recommend hl
        have hbk := updateFirst_booked_unique id df hN l hmem hid
        unfold availOK at hav2
        rw [hbk] at hav2
        have hfalse : strContainsCI "Booked" "Available" = false := by decide
        rw [hfalse] at hav2
        cases hav2
      · intro crit3 log3 gn3 ge3 un3 ts3
        unfold reserve
        rw [hfind2]
        simp only []
        rw [if_pos (show (lowerStr (bookListing row).availability !=
            "available") = true from
          (show (lowerStr "Booked" != "available") = true by decide))]

/-- The end-to-end catalog of §8 of the specification. -/
def listingAvail : Listing :=
  { listing_id := 1, name := "House", location := "Montreal",
    property_type := "house", price_per_night := "100",
    bedrooms := some 2, rating := 9 / 2, reviews_count := 12,
    amenities := "wifi", availability := "Available" }

def catalogC1 : List Listing := [listingAvail]

def critC1 : Criteria :=
  { location := "Montreal", date_checkin := ⟨2025, 9, 1⟩,
    date_checkout := ⟨2025, 9, 3⟩, property_type := "house",
    amenities := [], number_of_guests := some 2 }

theorem C1_witness :
    (catalogC1.map Listing.listing_id).Nodup ∧
    ∃ (resv : Reservation) (df2 : List Listing) (log2 : List Reservation),
      reserve catalogC1 [] 1 critC1 none none none "T" =
        (.ok resv, df2, log2) ∧
      ((∃ l, l ∈ df2 ∧ l.listing_id = 1 ∧ l.availability = "Booked") ∧
       (∀ l ∈ df2, l.listing_id = 1 → l.availability = "Booked") ∧
       (∀ (crit2 : Criteria) (k : Nat), ∀ l ∈ recommend crit2 df2 k,
         l.listing_id ≠ 1) ∧
       (∀ (crit3 : Criteria) (log3 : List Reservation)
         (gn3 ge3 un3 : Option String) (ts3 : String),
         (reserve df2 log3 1 crit3 gn3 ge3 un3 ts3).1 =
           .error "Sorry, this listing is no longer available.")) :=
  ⟨by decide, _, _, _, rfl,
   C1_reserve_at_most_once catalogC1 [] 1 critC1 none none none "T"
     (by decide) _ _ _ rfl⟩

end Booking
